import Mathlib

set_option maxRecDepth 40000

/-!
Verification development for the python-shinkansen envelope library.

Shallow embedding of the repository's data model and operations:
`shinkansen/common.py` (value types and message headers),
`shinkansen/payins.py` / `shinkansen/payouts.py` / `shinkansen/responses.py`
(envelope models and their JSON serialization), and `shinkansen/jws.py`
(detached-JWS signing and verification with a certificate whitelist).

Modelling conventions, stated once here and referenced from doc comments:
byte strings are `List Nat`; Python exceptions become constructors of one
error type `PyError` (the repository's exception classes and the errors the
external libraries raise are distinct constructors); fallible code returns
`Except PyError`.  The external cryptographic/JOSE primitives
(`jwcrypto`/`cryptography`) are not code of this repository, so they are
modelled as ideal executable functions: RSASSA-PSS-SHA256 is an ideal
signature scheme (a signature determines the public numbers and the exact
signing input, and verifies exactly against them), base64/base64url is an
injective dot-free byte-to-text codec with an executable decoder, X.509 DER
is an injective byte encoding of a certificate with an executable parser,
and the JSON serialization of the protected JOSE header is an injective
byte encoding with an executable parser.  Every property the claims rely on
(codec round trips, absence of the separator character in encoded segments,
injectivity) is proved, not assumed.
-/

namespace Shinkansen

/-! ## common.py: value types and message header -/

/-- Model of `common.FinancialInstitution`: a value type holding `fin_id`
and `fin_id_schema`. -/
structure FinancialInstitution where
  fin_id : String
  fin_id_schema : String
deriving DecidableEq, Repr

/-- Model of `FinancialInstitution.__init__`: `fin_id_schema` defaults to
`None`, and the body stores `fin_id_schema or "SHINKANSEN"`, so both an
omitted/`None` argument and a falsy (empty) string become `"SHINKANSEN"`. -/
def FinancialInstitution.make (fin_id : String) (fin_id_schema : Option String) :
    FinancialInstitution :=
  ⟨fin_id,
    match fin_id_schema with
    | none => "SHINKANSEN"
    | some s => if s = "" then "SHINKANSEN" else s⟩

/-- Model of `FinancialInstitution.__eq__`: value equality on both fields
(comparison with a non-`FinancialInstitution` is out of the model's scope). -/
def FinancialInstitution.eqPy (a b : FinancialInstitution) : Bool :=
  a.fin_id == b.fin_id && a.fin_id_schema == b.fin_id_schema

/-- Model of the module constant `common.SHINKANSEN = FinancialInstitution("SHINKANSEN")`. -/
def SHINKANSEN : FinancialInstitution := FinancialInstitution.make "SHINKANSEN" none

/-- Model of `common.PersonId`: a value type holding `id_schema` and `id`. -/
structure PersonId where
  id_schema : String
  id : String
deriving DecidableEq, Repr

/-- Model of `common.MessageHeader` after construction: `message_id` and
`creation_date` are auto-generated when absent, so a constructed header
always carries concrete strings. -/
structure MessageHeader where
  sender : FinancialInstitution
  receiver : FinancialInstitution
  message_id : String
  creation_date : String
deriving DecidableEq, Repr

/-! ## JSON values and rendering

`json.dumps(value, default=...)` is modelled by building the JSON tree each
serializer produces (`JValue`) and rendering it with Python's default
separators `", "` and `": "`.  String escaping is not modelled: the model's
strings are assumed escape-free, which holds for every concrete input used
below. -/

/-- A JSON value, as produced by the serializers of this repository. -/
inductive JValue where
  | null
  | bool (b : Bool)
  | str (s : String)
  | arr (items : List JValue)
  | obj (members : List (String × JValue))

mutual

/-- Render a JSON value the way `json.dumps` does with default separators. -/
def JValue.render : JValue → String
  | .null => "null"
  | .bool true => "true"
  | .bool false => "false"
  | .str s => "\"" ++ s ++ "\""
  | .arr items => "[" ++ JValue.renderItems items ++ "]"
  | .obj members => "\x7b" ++ JValue.renderMembers members ++ "\x7d"

/-- Render an array's items, comma-separated. -/
def JValue.renderItems : List JValue → String
  | [] => ""
  | [v] => v.render
  | v :: rest => v.render ++ ", " ++ JValue.renderItems rest

/-- Render an object's members, comma-separated, with `": "` after each key. -/
def JValue.renderMembers : List (String × JValue) → String
  | [] => ""
  | [(k, v)] => "\"" ++ k ++ "\": " ++ v.render
  | (k, v) :: rest => "\"" ++ k ++ "\": " ++ v.render ++ ", " ++ JValue.renderMembers rest

end

mutual

/-- `true` when no `null` occurs anywhere in the JSON value. -/
def JValue.noNulls : JValue → Bool
  | .null => false
  | .bool _ => true
  | .str _ => true
  | .arr items => JValue.noNullsItems items
  | .obj members => JValue.noNullsMembers members

/-- `noNulls` over an array's items. -/
def JValue.noNullsItems : List JValue → Bool
  | [] => true
  | v :: rest => v.noNulls && JValue.noNullsItems rest

/-- `noNulls` over an object's members. -/
def JValue.noNullsMembers : List (String × JValue) → Bool
  | [] => true
  | (_, v) :: rest => v.noNulls && JValue.noNullsMembers rest

end

/-- An unset (`None`) attribute serialized by a raw `o.__dict__` default
lambda: `None` becomes JSON `null`. -/
def optJStr : Option String → JValue
  | none => JValue.null
  | some s => JValue.str s

/-- One member of a filtered attribute dict
(`{k: v for (k, v) in o.__dict__.items() if v is not None}`): an unset
attribute contributes no member at all. -/
def optMember (k : String) : Option JValue → List (String × JValue)
  | none => []
  | some v => [(k, v)]

/-- JSON form of a `FinancialInstitution` (`__dict__` order: `fin_id`,
`fin_id_schema`; both always set). -/
def FinancialInstitution.toJ (fi : FinancialInstitution) : JValue :=
  .obj [("fin_id", .str fi.fin_id), ("fin_id_schema", .str fi.fin_id_schema)]

/-- JSON form of a `PersonId` (`__dict__` order: `id_schema`, `id`). -/
def PersonId.toJ (p : PersonId) : JValue :=
  .obj [("id_schema", .str p.id_schema), ("id", .str p.id)]

/-- JSON form of a `MessageHeader` (`__dict__` order: `sender`, `receiver`,
`message_id`, `creation_date`; all always set after construction). -/
def MessageHeader.toJ (h : MessageHeader) : JValue :=
  .obj [("sender", h.sender.toJ), ("receiver", h.receiver.toJ),
    ("message_id", .str h.message_id), ("creation_date", .str h.creation_date)]

/-! ## payins.py: payin envelope model and its filtered serializer -/

/-- Model of `payins.PayinDebtor`: every field is optional. -/
structure PayinDebtor where
  name : Option String
  identification : Option PersonId
  financial_institution : Option FinancialInstitution
  account : Option String
  account_type : Option String
  email : Option String
deriving DecidableEq, Repr

/-- Model of `payins.PayinCreditor`: all fields required. -/
structure PayinCreditor where
  name : String
  identification : PersonId
  financial_institution : FinancialInstitution
  account : String
  account_type : String
  email : String
deriving DecidableEq, Repr

/-- Model of `payins.PayinTransaction` after construction:
`transaction_type` is always the literal `"payin"`, `transaction_id` is
auto-generated when absent, and the `interactive_payment_*`, `amount`,
`description`, `expiration_date` and `debtor` attributes stay `None` when
not supplied. -/
structure PayinTransaction where
  payin_type : String
  interactive_payment_provider : Option String
  interactive_payment_success_redirect_url : Option String
  interactive_payment_failure_redirect_url : Option String
  transaction_id : String
  currency : String
  amount : Option String
  description : Option String
  expiration_date : Option String
  debtor : Option PayinDebtor
  creditor : PayinCreditor
deriving DecidableEq, Repr

/-- Model of `payins.PayinMessage`: header plus ordered transactions. -/
structure PayinMessage where
  header : MessageHeader
  transactions : List PayinTransaction
deriving DecidableEq, Repr

/-- Filtered JSON form of a `PayinDebtor`: `PayinMessage.as_json` serializes
with `default=lambda o: {k: v for (k, v) in o.__dict__.items() if v is not
None}`, so unset attributes are dropped. -/
def PayinDebtor.toJ (d : PayinDebtor) : JValue :=
  .obj (optMember "name" (d.name.map .str)
    ++ optMember "identification" (d.identification.map PersonId.toJ)
    ++ optMember "financial_institution" (d.financial_institution.map FinancialInstitution.toJ)
    ++ optMember "account" (d.account.map .str)
    ++ optMember "account_type" (d.account_type.map .str)
    ++ optMember "email" (d.email.map .str))

/-- JSON form of a `PayinCreditor` (no optional attribute). -/
def PayinCreditor.toJ (c : PayinCreditor) : JValue :=
  .obj [("name", .str c.name), ("identification", c.identification.toJ),
    ("financial_institution", c.financial_institution.toJ),
    ("account", .str c.account), ("account_type", .str c.account_type),
    ("email", .str c.email)]

/-- Filtered JSON form of a `PayinTransaction`, members in `__dict__`
(assignment) order; unset attributes are dropped. -/
def PayinTransaction.toJ (t : PayinTransaction) : JValue :=
  .obj ([("transaction_type", JValue.str "payin"), ("payin_type", JValue.str t.payin_type)]
    ++ optMember "interactive_payment_provider" (t.interactive_payment_provider.map .str)
    ++ optMember "interactive_payment_success_redirect_url"
      (t.interactive_payment_success_redirect_url.map .str)
    ++ optMember "interactive_payment_failure_redirect_url"
      (t.interactive_payment_failure_redirect_url.map .str)
    ++ [("transaction_id", JValue.str t.transaction_id), ("currency", JValue.str t.currency)]
    ++ optMember "amount" (t.amount.map .str)
    ++ optMember "description" (t.description.map .str)
    ++ optMember "expiration_date" (t.expiration_date.map .str)
    ++ optMember "debtor" (t.debtor.map PayinDebtor.toJ)
    ++ [("creditor", t.creditor.toJ)])

/-- JSON tree of `PayinMessage.as_json`: `{"document": self}` with the
filtered default lambda. -/
def PayinMessage.toJ (m : PayinMessage) : JValue :=
  .obj [("document", .obj [("header", m.header.toJ),
    ("transactions", .arr (m.transactions.map PayinTransaction.toJ))])]

/-- Model of `PayinMessage.as_json`. -/
def PayinMessage.as_json (m : PayinMessage) : String := m.toJ.render

/-! ## payouts.py: payout envelope model and its unfiltered serializer -/

/-- Model of `payouts.PayoutMessageHeader` after construction (identical
shape to `MessageHeader`; a distinct class in the source). -/
structure PayoutMessageHeader where
  sender : FinancialInstitution
  receiver : FinancialInstitution
  message_id : String
  creation_date : String
deriving DecidableEq, Repr

/-- Model of `payouts.PayoutDebtor`: every parameter is required (the
source annotates them all as `str`/objects without defaults). -/
structure PayoutDebtor where
  name : String
  identification : PersonId
  financial_institution : FinancialInstitution
  account : String
  account_type : String
  email : String
deriving DecidableEq, Repr

/-- Model of `payouts.PayoutCreditor` (same shape as `PayoutDebtor`). -/
structure PayoutCreditor where
  name : String
  identification : PersonId
  financial_institution : FinancialInstitution
  account : String
  account_type : String
  email : String
deriving DecidableEq, Repr

/-- Model of `payouts.PayoutTransaction` after construction:
`transaction_type` is the literal `"payout"`, and `transaction_id` /
`execution_date` are auto-generated when absent, so every attribute is set. -/
structure PayoutTransaction where
  transaction_id : String
  currency : String
  amount : String
  description : String
  execution_date : String
  debtor : PayoutDebtor
  creditor : PayoutCreditor
deriving DecidableEq, Repr

/-- Model of `payouts.PayoutMessage`. -/
structure PayoutMessage where
  header : PayoutMessageHeader
  transactions : List PayoutTransaction
deriving DecidableEq, Repr

/-- JSON form of a `PayoutMessageHeader` via the unfiltered
`default=lambda o: o.__dict__` (all attributes always set). -/
def PayoutMessageHeader.toJ (h : PayoutMessageHeader) : JValue :=
  .obj [("sender", h.sender.toJ), ("receiver", h.receiver.toJ),
    ("message_id", .str h.message_id), ("creation_date", .str h.creation_date)]

/-- JSON form of a `PayoutDebtor` (unfiltered `__dict__`). -/
def PayoutDebtor.toJ (d : PayoutDebtor) : JValue :=
  .obj [("name", .str d.name), ("identification", d.identification.toJ),
    ("financial_institution", d.financial_institution.toJ),
    ("account", .str d.account), ("account_type", .str d.account_type),
    ("email", .str d.email)]

/-- JSON form of a `PayoutCreditor` (unfiltered `__dict__`). -/
def PayoutCreditor.toJ (c : PayoutCreditor) : JValue :=
  .obj [("name", .str c.name), ("identification", c.identification.toJ),
    ("financial_institution", c.financial_institution.toJ),
    ("account", .str c.account), ("account_type", .str c.account_type),
    ("email", .str c.email)]

/-- JSON form of a `PayoutTransaction` (unfiltered `__dict__`, assignment
order starting with the fixed `transaction_type`). -/
def PayoutTransaction.toJ (t : PayoutTransaction) : JValue :=
  .obj [("transaction_type", .str "payout"), ("transaction_id", .str t.transaction_id),
    ("currency", .str t.currency), ("amount", .str t.amount),
    ("description", .str t.description), ("execution_date", .str t.execution_date),
    ("debtor", t.debtor.toJ), ("creditor", t.creditor.toJ)]

/-- JSON tree of `PayoutMessage.as_json`: `{"document": self}` with the
unfiltered `o.__dict__` default lambda. -/
def PayoutMessage.toJ (m : PayoutMessage) : JValue :=
  .obj [("document", .obj [("header", m.header.toJ),
    ("transactions", .arr (m.transactions.map PayoutTransaction.toJ))])]

/-- Model of `PayoutMessage.as_json`. -/
def PayoutMessage.as_json (m : PayoutMessage) : String := m.toJ.render

/-! ## Errors

One error type for the repository's exception classes and for the errors
that the external `jwcrypto`/`cryptography`/`base64` libraries raise
through the repository's code. -/

/-- Exceptions surfaced by the modelled code.  `invalidJWS`,
`certificateNotWhitelisted`, `keyMismatch`, `unexpectedSender` and
`unexpectedReceiver` are the repository's own classes; `invalidJWSObject`
models `jwcrypto.jws.InvalidJWSObject` (parse failure of the JWS),
`invalidSignature` models `jwcrypto.jws.InvalidJWSSignature` (the name the
repository's tests use as `jws.InvalidSignature`); `binasciiError`,
`valueError`, `typeError`, `attributeError` and `assertionError` model the
corresponding Python exceptions. -/
inductive PyError where
  | invalidJWS
  | invalidJWSObject
  | invalidSignature
  | certificateNotWhitelisted
  | keyMismatch
  | unexpectedSender
  | unexpectedReceiver
  | binasciiError
  | valueError
  | typeError
  | attributeError
  | assertionError
deriving DecidableEq, Repr

/-! ## responses.py: the Response class hierarchy and registry -/

/-- Model of a constructed `responses.Response` object.  Every parameter of
`Response.__init__` may be `None` (JSON `null` values are passed through,
as the repository's own sample data shows for `transaction_id`), except
`response_id`, which is replaced by a generated UUID when falsy. -/
structure Response where
  transaction_id : Option String
  shinkansen_transaction_id : Option String
  shinkansen_transaction_status : Option String
  shinkansen_transaction_message : Option String
  response_status : Option String
  response_message : Option String
  transaction_type : Option String
  response_id : String
deriving DecidableEq, Repr

/-- The Response classes present at module initialization: the base
`Response` and the registered `PayoutResponse`. -/
inductive RClass where
  | response
  | payoutResponse
deriving DecidableEq, Repr

/-- The `_transaction_type` CLASS attribute: `none` models the attribute
being absent from the class.  The `for_transaction_type("payout")`
decorator sets it on `PayoutResponse` only; the base `Response` class never
defines it. -/
def RClass.transactionTypeAttr : RClass → Option String
  | .response => none
  | .payoutResponse => some "payout"

/-- The registry `Response._transaction_type_to_class` after module
initialization: `{"payout": PayoutResponse}`. -/
def transactionTypeToClassMap (t : String) : Option RClass :=
  if t = "payout" then some RClass.payoutResponse else none

/-- A response JSON dict as handed to `Response.from_json_dict`.  The outer
`Option` models key presence in the dict, the inner `Option` models a JSON
`null` value.  Unrecognized extra keys are absorbed by `**kwargs` and are
not part of the model. -/
structure ResponseJsonDict where
  transaction_id : Option (Option String)
  shinkansen_transaction_id : Option (Option String)
  shinkansen_transaction_status : Option (Option String)
  shinkansen_transaction_message : Option (Option String)
  response_status : Option (Option String)
  response_message : Option (Option String)
  transaction_type : Option (Option String)
  response_id : Option (Option String)
deriving DecidableEq, Repr

/-- Model of `Response.__init__` invoked as `cls(**json_dict)`: a missing
required keyword raises `TypeError`; then attributes are assigned
(`response_id or random_uuid()` replaces a falsy `response_id` by the fresh
UUID `freshUuid`); then `if self.__class__._transaction_type:` reads the
class attribute — absent on the base class, so it raises `AttributeError` —
and on a registered subclass asserts agreement with, or fills in, the
instance's `transaction_type`. -/
def Response.init (cls : RClass) (d : ResponseJsonDict) (freshUuid : String) :
    Except PyError Response :=
  match d.transaction_id, d.shinkansen_transaction_id, d.shinkansen_transaction_status,
    d.shinkansen_transaction_message, d.response_status, d.response_message with
  | some tid, some stid, some sts, some stm, some rs, some rm =>
    let transaction_type : Option String := d.transaction_type.bind id
    let response_id : String :=
      match d.response_id.bind id with
      | some s => if s = "" then freshUuid else s
      | none => freshUuid
    let r : Response := ⟨tid, stid, sts, stm, rs, rm, transaction_type, response_id⟩
    match cls.transactionTypeAttr with
    | none => .error .attributeError
    | some ct =>
      if ct = "" then .ok r
      else
        match transaction_type with
        | some t => if t = ct then .ok r else .error .assertionError
        | none => .ok { r with transaction_type := some ct }
  | _, _, _, _, _, _ => .error .typeError

/-- Model of `Response.from_json_dict`: when the dict carries a
`transaction_type` key, the registered subclass is looked up (falling back
to the base `Response` class for unknown or `null` tags), then the chosen
class is constructed with the whole dict. -/
def Response.from_json_dict (d : ResponseJsonDict) (freshUuid : String) :
    Except PyError Response :=
  let cls : RClass :=
    match d.transaction_type with
    | none => RClass.response
    | some none => RClass.response
    | some (some t) => (transactionTypeToClassMap t).getD RClass.response
  Response.init cls d freshUuid

/-- JSON form of a constructed `Response` (unfiltered `__dict__`, assignment
order; unset attributes become `null`). -/
def Response.toJ (r : Response) : JValue :=
  .obj [("transaction_id", optJStr r.transaction_id),
    ("shinkansen_transaction_id", optJStr r.shinkansen_transaction_id),
    ("shinkansen_transaction_status", optJStr r.shinkansen_transaction_status),
    ("shinkansen_transaction_message", optJStr r.shinkansen_transaction_message),
    ("response_status", optJStr r.response_status),
    ("response_message", optJStr r.response_message),
    ("transaction_type", optJStr r.transaction_type),
    ("response_id", .str r.response_id)]

/-- Model of `responses.ResponseMessage`: header, ordered responses, and
the retained original JSON string (`None` when the message was not parsed
from wire bytes). -/
structure ResponseMessage where
  header : MessageHeader
  responses : List Response
  original_json : Option String
deriving DecidableEq, Repr

/-- JSON tree of `ResponseMessage.as_json`: `{"document": self}` with the
unfiltered `o.__dict__` default lambda — `original_json` is part of
`__dict__`, so an unset `original_json` is serialized as `null`. -/
def ResponseMessage.toJ (m : ResponseMessage) : JValue :=
  .obj [("document", .obj [("header", m.header.toJ),
    ("responses", .arr (m.responses.map Response.toJ)),
    ("original_json", optJStr m.original_json)])]

/-- Model of `ResponseMessage.as_json`. -/
def ResponseMessage.as_json (m : ResponseMessage) : String := m.toJ.render

/-! ## Byte strings and the base64/base64url codec model

Byte strings are `List Nat`.  The base64 codecs of the external libraries
are modelled by one injective byte-to-text codec whose output uses only the
sixteen digit characters `a`–`p` and the terminator `q` — in particular
never `.`, the property the compact JWS serialization relies on.  Each byte
is emitted as its base-16 digits (least significant first) followed by the
terminator. -/

/-- The sixteen digit characters of the codec. -/
def digitChar (d : Nat) : Char :=
  if d = 0 then 'a' else if d = 1 then 'b' else if d = 2 then 'c'
  else if d = 3 then 'd' else if d = 4 then 'e' else if d = 5 then 'f'
  else if d = 6 then 'g' else if d = 7 then 'h' else if d = 8 then 'i'
  else if d = 9 then 'j' else if d = 10 then 'k' else if d = 11 then 'l'
  else if d = 12 then 'm' else if d = 13 then 'n' else if d = 14 then 'o'
  else 'p'

/-- The value of a digit character (`none` for anything else). -/
def digitVal (c : Char) : Option Nat :=
  if c = 'a' then some 0 else if c = 'b' then some 1 else if c = 'c' then some 2
  else if c = 'd' then some 3 else if c = 'e' then some 4 else if c = 'f' then some 5
  else if c = 'g' then some 6 else if c = 'h' then some 7 else if c = 'i' then some 8
  else if c = 'j' then some 9 else if c = 'k' then some 10 else if c = 'l' then some 11
  else if c = 'm' then some 12 else if c = 'n' then some 13 else if c = 'o' then some 14
  else if c = 'p' then some 15 else none

/-- Fuel-driven digit emitter (structural recursion keeps every codec
function computable by the kernel). -/
def encNatBitsGo : Nat → Nat → List Char
  | 0, _ => []
  | fuel + 1, n =>
    if n = 0 then []
    else digitChar (n % 16) :: encNatBitsGo fuel (n / 16)

/-- The base-16 digits of `n`, least significant first. -/
def encNatBits (n : Nat) : List Char := encNatBitsGo n n

/-- One encoded byte: its digits plus the terminator `q`. -/
def encNatC (n : Nat) : List Char := encNatBits n ++ ['q']

/-- Encode a byte string; the codec modelling base64/base64url output. -/
def encBytes (l : List Nat) : List Char := (l.map encNatC).flatten

/-- Decode one byte: accumulate digits until the terminator, returning the
byte and the remaining characters. -/
def decNatAux : List Char → Nat → Nat → Option (Nat × List Char)
  | [], _, _ => none
  | ch :: rest, acc, mult =>
    match digitVal ch with
    | some d => decNatAux rest (acc + d * mult) (mult * 16)
    | none => if ch = 'q' then some (acc, rest) else none

/-- Fuel-driven decoder for a whole byte string. -/
def decBytesGo (fuel : Nat) (l : List Char) : Option (List Nat) :=
  match fuel, l with
  | _, [] => some []
  | 0, _ :: _ => none
  | f + 1, ch :: rest =>
    match decNatAux (ch :: rest) 0 1 with
    | none => none
    | some (n, r) => (decBytesGo f r).map (n :: ·)

/-- Decode a byte string (the decoder modelling base64/base64url decoding;
`none` models the decode error the library raises). -/
def decBytes (l : List Char) : Option (List Nat) := decBytesGo l.length l

/-- Model of `base64.b64encode` (and of the JOSE base64url encoder): bytes
to text. -/
def b64encodeBytes (l : List Nat) : String := String.mk (encBytes l)

/-- Model of `base64.b64decode` (and of the JOSE base64url decoder). -/
def b64decodeString (s : String) : Option (List Nat) := decBytes s.data

/-! ## Keys, certificates, DER, and the ideal PS256 scheme -/

/-- Model of `RSAPublicNumbers`: the public component of an RSA key. -/
structure RSAPublicNumbers where
  n : Nat
  e : Nat
deriving DecidableEq, Repr

/-- Model of `rsa.RSAPrivateKey`: public numbers plus the private exponent. -/
structure RSAPrivateKey where
  n : Nat
  e : Nat
  d : Nat
deriving DecidableEq, Repr

/-- Model of `key.public_key().public_numbers()`. -/
def RSAPrivateKey.public_numbers (k : RSAPrivateKey) : RSAPublicNumbers := ⟨k.n, k.e⟩

/-- Model of `x509.Certificate`: the embedded public numbers plus the rest
of the certificate's identity material (subject, serial, signature, ...),
which is what makes two certificates for the same key distinct. -/
structure Certificate where
  public_numbers : RSAPublicNumbers
  der_rest : List Nat
deriving DecidableEq, Repr

/-- Model of `jws._der`: the DER encoding of a certificate, an injective
byte encoding carrying the public numbers and the identity material. -/
def _der (c : Certificate) : List Nat :=
  c.public_numbers.n :: c.public_numbers.e :: c.der_rest

/-- Model of `x509.load_der_x509_certificate`; `none` models the
`ValueError` raised on bytes that are not a certificate. -/
def load_der_x509_certificate : List Nat → Option Certificate
  | n :: e :: rest => some ⟨⟨n, e⟩, rest⟩
  | _ => none

/-- Model of `jws._b64der`: standard base64 of the DER certificate. -/
def _b64der (c : Certificate) : String := b64encodeBytes (_der c)

/-- Model of `jws._cert_and_key_match`: the certificate's public numbers
equal the private key's public numbers. -/
def _cert_and_key_match (c : Certificate) (k : RSAPrivateKey) : Bool :=
  decide (c.public_numbers = k.public_numbers)

/-- Ideal model of RSASSA-PSS-SHA256 signing as performed by the JWS
library: the signature bytes determine the signer's public numbers and the
exact signing input. -/
def ps256Sign (k : RSAPrivateKey) (signingInput : String) : List Nat :=
  k.n :: k.e :: signingInput.data.map Char.toNat

/-- Ideal model of RSASSA-PSS-SHA256 verification: a signature verifies
exactly against the matching public numbers and the exact signing input. -/
def ps256Verify (pub : RSAPublicNumbers) (signingInput : String) (sig : List Nat) : Bool :=
  decide (sig = pub.n :: pub.e :: signingInput.data.map Char.toNat)

/-! ## jws.py: JOSE header, compact detached JWS, sign and verify -/

/-- The protected JOSE header as a partial record: `none` models a field
absent from the decoded header JSON. -/
structure JoseHeader where
  alg : Option String
  b64 : Option Bool
  crit : Option (List String)
  x5c : Option (List String)
deriving DecidableEq, Repr

/-- Length-prefixed byte encoding of a string (a building block of the
modelled header JSON). -/
def encStrB (s : String) : List Nat := s.data.length :: s.data.map Char.toNat

/-- Decoder for `encStrB`, returning the string and the remaining bytes. -/
def decStrB : List Nat → Option (String × List Nat)
  | [] => none
  | len :: rest =>
    if len ≤ rest.length then
      some (String.mk ((rest.take len).map Char.ofNat), rest.drop len)
    else none

/-- Length-prefixed byte encoding of a list of strings. -/
def encStrListB (l : List String) : List Nat := l.length :: (l.map encStrB).flatten

/-- Decode `count` consecutive `encStrB` strings. -/
def decStrListGo : Nat → List Nat → Option (List String × List Nat)
  | 0, r => some ([], r)
  | k + 1, r =>
    match decStrB r with
    | none => none
    | some (s, r') =>
      match decStrListGo k r' with
      | none => none
      | some (ss, r'') => some (s :: ss, r'')

/-- Decoder for `encStrListB`. -/
def decStrListB : List Nat → Option (List String × List Nat)
  | [] => none
  | n :: rest => decStrListGo n rest

/-- Byte encoding of a boolean header value. -/
def encBoolB (b : Bool) : List Nat := [if b then 1 else 0]

/-- Decoder for `encBoolB`. -/
def decBoolB : List Nat → Option (Bool × List Nat)
  | 0 :: r => some (false, r)
  | 1 :: r => some (true, r)
  | _ => none

/-- Byte encoding of an optional header field: a presence tag, then the
field's encoding. -/
def encOptB (enc : α → List Nat) : Option α → List Nat
  | none => [0]
  | some a => 1 :: enc a

/-- Decoder for `encOptB`. -/
def decOptB (dec : List Nat → Option (α × List Nat)) : List Nat → Option (Option α × List Nat)
  | 0 :: r => some (none, r)
  | 1 :: r => (dec r).map fun p => (some p.1, p.2)
  | _ => none

/-- Injective byte encoding of the protected JOSE header, modelling its
JSON serialization inside the JWS library. -/
def headerBytes (h : JoseHeader) : List Nat :=
  encOptB encStrB h.alg ++ encOptB encBoolB h.b64
    ++ encOptB encStrListB h.crit ++ encOptB encStrListB h.x5c

/-- Executable parser for `headerBytes`, modelling the JSON parsing of the
protected header inside the JWS library's `deserialize`. -/
def parseJoseHeader (b : List Nat) : Option JoseHeader :=
  match decOptB decStrB b with
  | none => none
  | some (alg, r1) =>
    match decOptB decBoolB r1 with
    | none => none
    | some (b64, r2) =>
      match decOptB decStrListB r2 with
      | none => none
      | some (crit, r3) =>
        match decOptB decStrListB r3 with
        | none => none
        | some (x5c, r4) => if r4 = [] then some ⟨alg, b64, crit, x5c⟩ else none

/-- The protected header `sign` builds: `alg="PS256"`, `b64=false`,
`crit=["b64"]`, `x5c=[base64(DER(certificate))]`. -/
def signedHeader (certificate : Certificate) : JoseHeader :=
  ⟨some "PS256", some false, some ["b64"], some [_b64der certificate]⟩

/-- The base64url protected-header segment of the compact JWS `sign`
produces. -/
def signedProtSegment (certificate : Certificate) : String :=
  String.mk (encBytes (headerBytes (signedHeader certificate)))

/-- Model of `jws.sign`: raise `KeyMismatch` unless the certificate and key
match; otherwise sign `base64url(header) ++ "." ++ payload` (the `b64=false`
signing input) with PS256 and return
`base64url(header) ++ ".." ++ base64url(signature)`. -/
def sign (payload : String) (key : RSAPrivateKey) (certificate : Certificate) :
    Except PyError String :=
  if _cert_and_key_match certificate key then
    Except.ok (signedProtSegment certificate ++ ".."
      ++ String.mk (encBytes (ps256Sign key (signedProtSegment certificate ++ "." ++ payload))))
  else Except.error PyError.keyMismatch

/-- Model of Python's `str.split(".")`: split on every dot, keeping empty
segments. -/
def pySplitDot : List Char → List (List Char)
  | [] => [[]]
  | ch :: rest =>
    if ch = '.' then [] :: pySplitDot rest
    else
      match pySplitDot rest with
      | [] => [[ch]]
      | seg :: segs => (ch :: seg) :: segs

/-- A deserialized JWS object: the raw protected segment (needed to rebuild
the signing input), the decoded protected header, the raw payload segment,
and the decoded signature bytes. -/
structure JWSObj where
  protSegment : List Char
  jose_header : JoseHeader
  payloadSegment : List Char
  signature : List Nat
deriving DecidableEq, Repr

/-- Model of `jwcrypto`'s `JWS.deserialize` on a compact serialization:
split on `.` expecting exactly three segments, base64url-decode the
protected segment and the signature, and parse the protected header; every
failure raises the library's `InvalidJWSObject`. -/
def jwsDeserialize (s : String) : Except PyError JWSObj :=
  match pySplitDot s.data with
  | [p, mid, sg] =>
    match decBytes p with
    | none => Except.error PyError.invalidJWSObject
    | some hb =>
      match parseJoseHeader hb with
      | none => Except.error PyError.invalidJWSObject
      | some h =>
        match decBytes sg with
        | none => Except.error PyError.invalidJWSObject
        | some sigB => Except.ok ⟨p, h, mid, sigB⟩
  | _ => Except.error PyError.invalidJWSObject

/-- Model of `jws._x5c_first`: `InvalidJWS` when `x5c` is missing from the
JOSE header or its array is empty, otherwise the first entry. -/
def _x5c_first (jws : JWSObj) : Except PyError String :=
  match jws.jose_header.x5c with
  | none => Except.error PyError.invalidJWS
  | some [] => Except.error PyError.invalidJWS
  | some (c :: _) => Except.ok c

/-- Model of `jwcrypto`'s `JWS.verify` with a detached payload: rebuild the
signing input from the raw protected segment and the supplied payload
(honouring `b64=false`), check the algorithm pinned by the caller, and
verify; any failure raises `InvalidJWSSignature` (surfaced by this
repository as `jws.InvalidSignature`). -/
def jwsVerify (jws : JWSObj) (pub : RSAPublicNumbers) (detached_payload : String) :
    Except PyError Unit :=
  let signingInput : String :=
    match jws.jose_header.b64 with
    | some false => String.mk jws.protSegment ++ "." ++ detached_payload
    | _ => String.mk jws.protSegment ++ "."
        ++ b64encodeBytes (detached_payload.data.map Char.toNat)
  if jws.jose_header.alg == some "PS256"
      && ps256Verify pub signingInput jws.signature then Except.ok ()
  else Except.error PyError.invalidSignature

/-- Model of `jws.verify_detached`: deserialize the compact JWS, take the
first `x5c` certificate, base64-decode and DER-parse it, verify the
signature against that certificate's public key, and only then compare the
candidate's DER bytes against every whitelisted certificate, raising
`CertificateNotWhitelisted` when none matches. -/
def verify_detached (payload : String) (detached_jws : String)
    (certificate_whitelist : List Certificate) : Except PyError Unit :=
  match jwsDeserialize detached_jws with
  | Except.error e => Except.error e
  | Except.ok jws =>
    match _x5c_first jws with
    | Except.error e => Except.error e
    | Except.ok x5c_str =>
      match b64decodeString x5c_str with
      | none => Except.error PyError.binasciiError
      | some x5c_first_der =>
        match load_der_x509_certificate x5c_first_der with
        | none => Except.error PyError.valueError
        | some certificate =>
          match jwsVerify jws certificate.public_numbers payload with
          | Except.error e => Except.error e
          | Except.ok _ =>
            if certificate_whitelist.all (fun c => decide (_der c ≠ x5c_first_der)) then
              Except.error PyError.certificateNotWhitelisted
            else Except.ok ()

/-- Model of `ResponseMessage.verify`: verify the detached signature over
the retained `original_json` (a missing `original_json` would make the
library reject the payload, modelled as `typeError`), then check the
sender, then the receiver, with the value equality of
`FinancialInstitution.__eq__`. -/
def ResponseMessage.verify (m : ResponseMessage) (detached_jws : String)
    (sender_certificates : List Certificate) (sender receiver : FinancialInstitution) :
    Except PyError Unit :=
  match m.original_json with
  | none => Except.error PyError.typeError
  | some original =>
    match verify_detached original detached_jws sender_certificates with
    | Except.error e => Except.error e
    | Except.ok _ =>
      if (m.header.sender.eqPy sender) = false then Except.error PyError.unexpectedSender
      else if (m.header.receiver.eqPy receiver) = false then
        Except.error PyError.unexpectedReceiver
      else Except.ok ()

/-! ## Concrete instances used by witnesses and counterexamples -/

/-- A tiny RSA private key for concrete evaluations. -/
def wKey : RSAPrivateKey := ⟨2, 3, 5⟩

/-- A second key whose public numbers differ from `wKey`'s. -/
def wKeyOther : RSAPrivateKey := ⟨3, 3, 5⟩

/-- A certificate for `wKey`'s public numbers. -/
def wCert : Certificate := ⟨⟨2, 3⟩, [7]⟩

/-- A different certificate for the same public numbers (distinct DER). -/
def wCertOther : Certificate := ⟨⟨2, 3⟩, [8]⟩

/-- The compact detached JWS `sign` produces for payload `"test"` with
`wKey` and `wCert`. -/
def wSig : String :=
  match sign "test" wKey wCert with
  | Except.ok s => s
  | Except.error _ => ""

/-- The deserialized form of `wSig`. -/
def wObj : JWSObj :=
  match jwsDeserialize wSig with
  | Except.ok o => o
  | Except.error _ => ⟨[], ⟨none, none, none, none⟩, [], []⟩

/-- A concrete `ResponseMessage` parsed from wire bytes `"test"`, addressed
from `SHINKANSEN` to `TAMAGOTCHI`. -/
def wRespMsg : ResponseMessage :=
  ⟨⟨SHINKANSEN, FinancialInstitution.make "TAMAGOTCHI" none, "m-1", "2022-10-07T14:43:55Z"⟩,
    [], some "test"⟩

/-- A concrete `ResponseMessage` built directly (not parsed from wire
bytes), so its `original_json` is unset. -/
def cRespMsgNoOriginal : ResponseMessage :=
  ⟨⟨SHINKANSEN, FinancialInstitution.make "TAMAGOTCHI" none, "m-2", "2022-10-07T14:43:55Z"⟩,
    [], none⟩

/-- A response JSON dict with every base field present and an unregistered
`transaction_type` tag. -/
def cUnknownTypeDict : ResponseJsonDict :=
  ⟨some (some "1545e0f0"), some (some "5e5a7344"), some (some "ok"), some (some "ok"),
    some (some "ok"), some (some ""), some (some "bank_transfer"), some (some "f7a29de9")⟩

/-- The same response JSON dict without any `transaction_type` key. -/
def cNoTypeDict : ResponseJsonDict :=
  ⟨some (some "1545e0f0"), some (some "5e5a7344"), some (some "ok"), some (some "ok"),
    some (some "ok"), some (some ""), none, some (some "f7a29de9")⟩

/-- The same response JSON dict with the registered tag `"payout"`. -/
def cPayoutTypeDict : ResponseJsonDict :=
  ⟨some (some "1545e0f0"), some (some "5e5a7344"), some (some "ok"), some (some "ok"),
    some (some "ok"), some (some ""), some (some "payout"), some (some "f7a29de9")⟩

/-- Substring check on character lists. -/
def listInfixOf (needle : List Char) : List Char → Bool
  | [] => needle.isPrefixOf []
  | ch :: rest => needle.isPrefixOf (ch :: rest) || listInfixOf needle rest

/-- Substring check on strings. -/
def strContains (hay needle : String) : Bool := listInfixOf needle.data hay.data

/-! ## Round-trip and character lemmas for the codec model -/

theorem data_mk (l : List Char) : (String.mk l).data = l := rfl

theorem mk_data (s : String) : String.mk s.data = s := rfl

theorem dotdot_data : (".." : String).data = ['.', '.'] := rfl

theorem char_toNat_injective : Function.Injective Char.toNat := by
  intro a b h
  have := congrArg Char.ofNat h
  rwa [Char.ofNat_toNat, Char.ofNat_toNat] at this

theorem digitVal_digitChar (d : Nat) (h : d < 16) : digitVal (digitChar d) = some d := by
  have hall : ∀ x ∈ List.range 16, digitVal (digitChar x) = some x := by decide
  exact hall d (List.mem_range.mpr h)

theorem digitChar_ge15 (d : Nat) (h : ¬ d < 15) : digitChar d = 'p' := by
  unfold digitChar
  rw [if_neg (by omega : ¬ d = 0), if_neg (by omega : ¬ d = 1), if_neg (by omega : ¬ d = 2),
    if_neg (by omega : ¬ d = 3), if_neg (by omega : ¬ d = 4), if_neg (by omega : ¬ d = 5),
    if_neg (by omega : ¬ d = 6), if_neg (by omega : ¬ d = 7), if_neg (by omega : ¬ d = 8),
    if_neg (by omega : ¬ d = 9), if_neg (by omega : ¬ d = 10), if_neg (by omega : ¬ d = 11),
    if_neg (by omega : ¬ d = 12), if_neg (by omega : ¬ d = 13), if_neg (by omega : ¬ d = 14)]

theorem digitChar_ne_dot (d : Nat) : digitChar d ≠ '.' := by
  by_cases h : d < 15
  · have hall : ∀ x ∈ List.range 15, digitChar x ≠ '.' := by decide
    exact hall d (List.mem_range.mpr h)
  · rw [digitChar_ge15 d h]
    decide

theorem decNatAux_terminator (acc mult : Nat) (rest : List Char) :
    decNatAux ('q' :: rest) acc mult = some (acc, rest) := rfl

theorem decNatAux_encNatBitsGo :
    ∀ fuel n, n ≤ fuel → ∀ acc mult rest,
      decNatAux (encNatBitsGo fuel n ++ 'q' :: rest) acc mult = some (acc + n * mult, rest) := by
  intro fuel
  induction fuel with
  | zero =>
    intro n hn acc mult rest
    have h0 : n = 0 := by omega
    subst h0
    simp [encNatBitsGo, decNatAux_terminator]
  | succ f ih =>
    intro n hn acc mult rest
    by_cases h0 : n = 0
    · subst h0
      simp [encNatBitsGo, decNatAux_terminator]
    · rw [encNatBitsGo, if_neg h0, List.cons_append, decNatAux,
        digitVal_digitChar (n % 16) (by omega)]
      have hdiv : n / 16 ≤ f := by omega
      show decNatAux (encNatBitsGo f (n / 16) ++ 'q' :: rest) (acc + n % 16 * mult) (mult * 16)
        = some (acc + n * mult, rest)
      rw [ih (n / 16) hdiv (acc + n % 16 * mult) (mult * 16) rest]
      have h2 : n / 16 * 16 + n % 16 = n := by omega
      have h3 : acc + n % 16 * mult + n / 16 * (mult * 16) = acc + n * mult := by
        calc acc + n % 16 * mult + n / 16 * (mult * 16)
            = acc + (n / 16 * 16 + n % 16) * mult := by ring
          _ = acc + n * mult := by rw [h2]
      rw [h3]

theorem decNatAux_encNatBits (n : Nat) :
    ∀ acc mult rest, decNatAux (encNatBits n ++ 'q' :: rest) acc mult
      = some (acc + n * mult, rest) :=
  fun acc mult rest => decNatAux_encNatBitsGo n n le_rfl acc mult rest

theorem encBytes_nil : encBytes [] = [] := rfl

theorem encBytes_cons (x : Nat) (t : List Nat) :
    encBytes (x :: t) = encNatBits x ++ 'q' :: encBytes t := by
  simp [encBytes, encNatC, List.append_assoc]

theorem decBytesGo_step (f : Nat) (l : List Char) (hl : l ≠ []) :
    decBytesGo (f + 1) l =
      match decNatAux l 0 1 with
      | none => none
      | some (n, r) => (decBytesGo f r).map (n :: ·) := by
  cases l with
  | nil => exact absurd rfl hl
  | cons c cs => rfl

theorem decBytesGo_encBytes (l : List Nat) :
    ∀ fuel, (encBytes l).length ≤ fuel → decBytesGo fuel (encBytes l) = some l := by
  induction l with
  | nil =>
    intro fuel _
    cases fuel <;> simp [encBytes, decBytesGo]
  | cons x t ih =>
    intro fuel hf
    rw [encBytes_cons] at hf ⊢
    have hne : encNatBits x ++ 'q' :: encBytes t ≠ [] := by
      cases hx : encNatBits x <;> simp [hx]
    have hlen : (encNatBits x).length + ((encBytes t).length + 1) ≤ fuel := by
      simpa [List.length_append] using hf
    obtain ⟨f, rfl⟩ : ∃ f, fuel = f + 1 := by
      cases fuel
      · omega
      · exact ⟨_, rfl⟩
    rw [decBytesGo_step f _ hne, decNatAux_encNatBits x 0 1 (encBytes t)]
    have hrest : (encBytes t).length ≤ f := by omega
    simp [ih f hrest]

theorem decBytes_encBytes (l : List Nat) : decBytes (encBytes l) = some l :=
  decBytesGo_encBytes l _ le_rfl

theorem encNatBitsGo_no_dot : ∀ fuel n c, c ∈ encNatBitsGo fuel n → c ≠ '.' := by
  intro fuel
  induction fuel with
  | zero =>
    intro n c hc
    simp [encNatBitsGo] at hc
  | succ f ih =>
    intro n c hc
    by_cases h0 : n = 0
    · rw [encNatBitsGo, if_pos h0] at hc
      simp at hc
    · rw [encNatBitsGo, if_neg h0] at hc
      rcases List.mem_cons.mp hc with h | h
      · subst h
        exact digitChar_ne_dot (n % 16)
      · exact ih (n / 16) c h

theorem encBytes_no_dot (l : List Nat) : ∀ c ∈ encBytes l, c ≠ '.' := by
  induction l with
  | nil => simp [encBytes]
  | cons x t ih =>
    intro c hc
    rw [encBytes_cons] at hc
    rcases List.mem_append.mp hc with h | h
    · exact encNatBitsGo_no_dot x x c h
    · rcases List.mem_cons.mp h with h' | h'
      · subst h'
        decide
      · exact ih c h'

theorem pySplitDot_no_dot (l : List Char) (h : ∀ c ∈ l, c ≠ '.') : pySplitDot l = [l] := by
  induction l with
  | nil => rfl
  | cons c cs ih =>
    have htail := ih (fun x hx => h x (List.mem_cons_of_mem c hx))
    rw [pySplitDot, if_neg (h c (List.mem_cons_self c cs)), htail]

theorem pySplitDot_compact (hseg sseg : List Char)
    (h1 : ∀ c ∈ hseg, c ≠ '.') (h2 : ∀ c ∈ sseg, c ≠ '.') :
    pySplitDot (hseg ++ '.' :: '.' :: sseg) = [hseg, [], sseg] := by
  induction hseg with
  | nil =>
    rw [List.nil_append, pySplitDot, if_pos rfl, pySplitDot, if_pos rfl,
      pySplitDot_no_dot sseg h2]
  | cons c cs ih =>
    rw [List.cons_append, pySplitDot, if_neg (h1 c (List.mem_cons_self c cs)),
      ih (fun x hx => h1 x (List.mem_cons_of_mem c hx))]

theorem decStrB_encStrB (s : String) (r : List Nat) : decStrB (encStrB s ++ r) = some (s, r) := by
  rw [encStrB, List.cons_append, decStrB]
  rw [if_pos (by rw [List.length_append, List.length_map]; omega)]
  have hlen : s.data.length = (s.data.map Char.toNat).length := (List.length_map _ _).symm
  rw [hlen, List.take_left, List.drop_left, List.map_map]
  have hmap : s.data.map (Char.ofNat ∘ Char.toNat) = s.data := by
    simp [Function.comp_def, Char.ofNat_toNat]
  rw [hmap, mk_data]

theorem decStrListGo_enc (l : List String) :
    ∀ r, decStrListGo l.length ((l.map encStrB).flatten ++ r) = some (l, r) := by
  induction l with
  | nil => intro r; simp [decStrListGo]
  | cons s t ih =>
    intro r
    simp only [List.map_cons, List.flatten_cons, List.length_cons, List.append_assoc]
    simp [decStrListGo, decStrB_encStrB s _, ih r]

theorem decStrListB_enc (l : List String) (r : List Nat) :
    decStrListB (encStrListB l ++ r) = some (l, r) := by
  rw [encStrListB, List.cons_append, decStrListB]
  exact decStrListGo_enc l r

theorem decBoolB_enc (b : Bool) (r : List Nat) : decBoolB (encBoolB b ++ r) = some (b, r) := by
  cases b <;> rfl

theorem decOptB_enc {α : Type} (enc : α → List Nat) (dec : List Nat → Option (α × List Nat))
    (hdec : ∀ a r, dec (enc a ++ r) = some (a, r)) (o : Option α) (r : List Nat) :
    decOptB dec (encOptB enc o ++ r) = some (o, r) := by
  cases o with
  | none => rfl
  | some a => rw [encOptB, List.cons_append, decOptB, hdec a r]; rfl

theorem parseJoseHeader_headerBytes (h : JoseHeader) :
    parseJoseHeader (headerBytes h) = some h := by
  rw [headerBytes, List.append_assoc, List.append_assoc,
    ← List.append_nil (encOptB encStrListB h.x5c)]
  simp only [parseJoseHeader,
    decOptB_enc encStrB decStrB decStrB_encStrB h.alg,
    decOptB_enc encBoolB decBoolB decBoolB_enc h.b64,
    decOptB_enc encStrListB decStrListB decStrListB_enc h.crit,
    decOptB_enc encStrListB decStrListB decStrListB_enc h.x5c, if_true]

/-! ## Lemmas about `sign` and `verify_detached` -/

theorem sign_eq_ok {payload : String} {key : RSAPrivateKey} {certificate : Certificate}
    {s : String} (h : sign payload key certificate = Except.ok s) :
    _cert_and_key_match certificate key = true ∧
      s = signedProtSegment certificate ++ ".."
        ++ String.mk (encBytes (ps256Sign key (signedProtSegment certificate ++ "." ++ payload))) := by
  unfold sign at h
  by_cases hm : _cert_and_key_match certificate key
  · rw [if_pos hm] at h
    injection h with h'
    exact ⟨hm, h'.symm⟩
  · rw [if_neg hm] at h
    exact Except.noConfusion h

theorem compact_data (certificate : Certificate) (sigB : List Nat) :
    (signedProtSegment certificate ++ ".." ++ String.mk (encBytes sigB)).data
      = encBytes (headerBytes (signedHeader certificate)) ++ '.' :: '.' :: encBytes sigB := by
  rw [String.data_append, String.data_append, dotdot_data, data_mk]
  rw [signedProtSegment, data_mk, List.append_assoc]
  rfl

theorem jwsDeserialize_signed (certificate : Certificate) (sigB : List Nat) :
    jwsDeserialize (signedProtSegment certificate ++ ".." ++ String.mk (encBytes sigB)) =
      Except.ok ⟨encBytes (headerBytes (signedHeader certificate)), signedHeader certificate,
        [], sigB⟩ := by
  rw [jwsDeserialize, compact_data]
  rw [pySplitDot_compact _ _ (encBytes_no_dot _) (encBytes_no_dot _)]
  simp [decBytes_encBytes, parseJoseHeader_headerBytes]

theorem verify_detached_signed_generic (payloadV : String) (certificate : Certificate)
    (sigB : List Nat) (wl : List Certificate) :
    verify_detached payloadV
        (signedProtSegment certificate ++ ".." ++ String.mk (encBytes sigB)) wl =
      (if ps256Verify certificate.public_numbers
          (signedProtSegment certificate ++ "." ++ payloadV) sigB then
        (if wl.all (fun c => decide (_der c ≠ _der certificate)) then
          Except.error PyError.certificateNotWhitelisted
        else Except.ok ())
      else Except.error PyError.invalidSignature) := by
  have hx : _x5c_first ⟨encBytes (headerBytes (signedHeader certificate)),
      signedHeader certificate, [], sigB⟩ = Except.ok (_b64der certificate) := rfl
  have hb : b64decodeString (_b64der certificate) = some (_der certificate) := by
    rw [_b64der, b64encodeBytes, b64decodeString, data_mk]
    exact decBytes_encBytes _
  have hl : load_der_x509_certificate (_der certificate) = some certificate := by
    rcases certificate with ⟨⟨n, e⟩, rest⟩
    rfl
  have hjv : jwsVerify ⟨encBytes (headerBytes (signedHeader certificate)),
      signedHeader certificate, [], sigB⟩ certificate.public_numbers payloadV =
      (if ps256Verify certificate.public_numbers
          (signedProtSegment certificate ++ "." ++ payloadV) sigB then Except.ok ()
        else Except.error PyError.invalidSignature) := by
    rw [jwsVerify]
    have hb64 : (signedHeader certificate).b64 = some false := rfl
    have halg : ((signedHeader certificate).alg == some "PS256") = true := rfl
    simp only [hb64, halg, Bool.true_and]
    rfl
  rw [verify_detached, jwsDeserialize_signed]
  simp only [hx, hb, hl, hjv]
  by_cases hv : ps256Verify certificate.public_numbers
      (signedProtSegment certificate ++ "." ++ payloadV) sigB
  · simp [hv]
  · simp [hv]

theorem string_data_inj {s t : String} (h : s.data = t.data) : s = t := by
  cases s with
  | mk d1 =>
    cases t with
    | mk d2 =>
      have hd : d1 = d2 := h
      rw [hd]

theorem string_codes_inj {s t : String}
    (h : s.data.map Char.toNat = t.data.map Char.toNat) : s = t :=
  string_data_inj (List.map_injective_iff.mpr char_toNat_injective h)

theorem signing_input_inj (seg : String) {p p' : String}
    (h : seg ++ "." ++ p = seg ++ "." ++ p') : p = p' := by
  have hd := congrArg String.data h
  rw [String.data_append, String.data_append, String.data_append, String.data_append,
    List.append_assoc, List.append_assoc] at hd
  exact string_data_inj (List.append_cancel_left (List.append_cancel_left hd))

theorem ps256Verify_signed_neq {key : RSAPrivateKey} {certificate : Certificate}
    (hm : _cert_and_key_match certificate key = true)
    {input input' : String} (hne : input' ≠ input) :
    ps256Verify certificate.public_numbers input' (ps256Sign key input) = false := by
  have hpub : certificate.public_numbers = key.public_numbers := of_decide_eq_true hm
  rw [ps256Verify, hpub, ps256Sign]
  rw [decide_eq_false_iff_not]
  intro hEq
  rw [RSAPrivateKey.public_numbers] at hEq
  have hmap : input.data.map Char.toNat = input'.data.map Char.toNat := by
    injection hEq with h1 h2
    injection h2 with h3 h4
  exact hne (string_codes_inj hmap.symm)

theorem ps256Verify_signed_self {key : RSAPrivateKey} {certificate : Certificate}
    (hm : _cert_and_key_match certificate key = true) (input : String) :
    ps256Verify certificate.public_numbers input (ps256Sign key input) = true := by
  have hpub : certificate.public_numbers = key.public_numbers := of_decide_eq_true hm
  rw [ps256Verify, hpub, ps256Sign, RSAPrivateKey.public_numbers]
  simp

theorem jwsVerify_error_eq {jws : JWSObj} {pub : RSAPublicNumbers} {p : String} {e : PyError}
    (h : jwsVerify jws pub p = Except.error e) : e = PyError.invalidSignature := by
  rw [jwsVerify] at h
  split at h
  · exact Except.noConfusion h
  · injection h with h'
    exact h'.symm

theorem jwsDeserialize_error_eq {s : String} {e : PyError}
    (h : jwsDeserialize s = Except.error e) : e = PyError.invalidJWSObject := by
  rw [jwsDeserialize] at h
  split at h
  · split at h
    · injection h with h'
      exact h'.symm
    · split at h
      · injection h with h'
        exact h'.symm
      · split at h
        · injection h with h'
          exact h'.symm
        · exact Except.noConfusion h
  · injection h with h'
    exact h'.symm

/-! ## Lemmas about the JSON serializers -/

theorem noNulls_obj (l : List (String × JValue)) :
    (JValue.obj l).noNulls = JValue.noNullsMembers l := rfl

theorem noNullsMembers_append (l1 l2 : List (String × JValue)) :
    JValue.noNullsMembers (l1 ++ l2)
      = (JValue.noNullsMembers l1 && JValue.noNullsMembers l2) := by
  induction l1 with
  | nil => simp [JValue.noNullsMembers]
  | cons kv t ih =>
    cases kv with
    | mk k v => simp [JValue.noNullsMembers, ih, Bool.and_assoc]

theorem noNulls_optMember_str (k : String) (o : Option String) :
    JValue.noNullsMembers (optMember k (o.map JValue.str)) = true := by
  cases o <;> rfl

theorem noNulls_optMember_of {α : Type} (k : String) (f : α → JValue)
    (hf : ∀ x, (f x).noNulls = true) (o : Option α) :
    JValue.noNullsMembers (optMember k (o.map f)) = true := by
  cases o with
  | none => rfl
  | some x => simp [optMember, JValue.noNullsMembers, hf x]

theorem noNulls_financial_institution (fi : FinancialInstitution) :
    (FinancialInstitution.toJ fi).noNulls = true := rfl

theorem noNulls_person_id (p : PersonId) : (PersonId.toJ p).noNulls = true := rfl

theorem noNulls_message_header (h : MessageHeader) : (MessageHeader.toJ h).noNulls = true := rfl

theorem noNulls_payin_creditor (c : PayinCreditor) : (PayinCreditor.toJ c).noNulls = true := rfl

theorem noNulls_payin_debtor (d : PayinDebtor) : (PayinDebtor.toJ d).noNulls = true := by
  rw [PayinDebtor.toJ, noNulls_obj]
  simp [noNullsMembers_append, noNulls_optMember_str,
    noNulls_optMember_of _ PersonId.toJ noNulls_person_id,
    noNulls_optMember_of _ FinancialInstitution.toJ noNulls_financial_institution]

theorem noNulls_payin_transaction (t : PayinTransaction) :
    (PayinTransaction.toJ t).noNulls = true := by
  rw [PayinTransaction.toJ, noNulls_obj]
  simp [noNullsMembers_append, noNulls_optMember_str, JValue.noNullsMembers, JValue.noNulls,
    noNulls_optMember_of _ PayinDebtor.toJ noNulls_payin_debtor,
    PayinCreditor.toJ, PersonId.toJ, FinancialInstitution.toJ]

theorem noNullsItems_map_payin (l : List PayinTransaction) :
    JValue.noNullsItems (l.map PayinTransaction.toJ) = true := by
  induction l with
  | nil => rfl
  | cons t rest ih => simp [JValue.noNullsItems, noNulls_payin_transaction, ih]

theorem noNulls_payin_message (m : PayinMessage) : (PayinMessage.toJ m).noNulls = true := by
  rw [PayinMessage.toJ]
  simp [JValue.noNulls, JValue.noNullsMembers, MessageHeader.toJ, FinancialInstitution.toJ,
    noNullsItems_map_payin]

theorem noNulls_payout_transaction (t : PayoutTransaction) :
    (PayoutTransaction.toJ t).noNulls = true := rfl

theorem noNullsItems_map_payout (l : List PayoutTransaction) :
    JValue.noNullsItems (l.map PayoutTransaction.toJ) = true := by
  induction l with
  | nil => rfl
  | cons t rest ih => simp [JValue.noNullsItems, noNulls_payout_transaction, ih]

theorem noNulls_payout_header (h : PayoutMessageHeader) :
    (PayoutMessageHeader.toJ h).noNulls = true := rfl

theorem noNulls_payout_message (m : PayoutMessage) : (PayoutMessage.toJ m).noNulls = true := by
  rw [PayoutMessage.toJ]
  simp [JValue.noNulls, JValue.noNullsMembers, PayoutMessageHeader.toJ,
    FinancialInstitution.toJ, noNullsItems_map_payout]

/-! ## The claims -/

/-- C1: for every payload string and every RSA private key and certificate
whose public keys match (equivalently: whenever `sign` succeeds),
`verify_detached(payload, sign(payload, key, cert), [cert])` succeeds,
returning without any error. -/
theorem sign_verify_roundtrip :
    ∀ payload key certificate s, sign payload key certificate = Except.ok s →
      verify_detached payload s [certificate] = Except.ok () := by
  intro p k c s hs
  obtain ⟨hm, rfl⟩ := sign_eq_ok hs
  rw [verify_detached_signed_generic]
  rw [ps256Verify_signed_self hm (signedProtSegment c ++ "." ++ p), if_pos rfl]
  have hall : ([c].all fun cc => decide (_der cc ≠ _der c)) = false := by
    simp
  rw [hall]
  rfl

/-- Witness for C1 at payload `"test"` with the concrete key `wKey` and
certificate `wCert`. -/
theorem sign_verify_roundtrip_witness :
    verify_detached "test" wSig [wCert] = Except.ok () :=
  sign_verify_roundtrip "test" wKey wCert wSig rfl

/-- C2: whenever the compact JWS parses and its embedded x5c certificate is
extracted, the whitelist is consulted only after cryptographic verification
has succeeded: if verification succeeds and no whitelisted certificate has
the same DER bytes, the result is exactly `CertificateNotWhitelisted`
(never `InvalidSignature`); and conversely a `CertificateNotWhitelisted`
outcome implies cryptographic verification succeeded. -/
theorem verify_detached_whitelist_after_crypto :
    ∀ payload s wl jws x5c_str x5c_der certificate,
      jwsDeserialize s = Except.ok jws →
      _x5c_first jws = Except.ok x5c_str →
      b64decodeString x5c_str = some x5c_der →
      load_der_x509_certificate x5c_der = some certificate →
      ((jwsVerify jws certificate.public_numbers payload = Except.ok () →
        (wl.all fun c => decide (_der c ≠ x5c_der)) = true →
        verify_detached payload s wl = Except.error PyError.certificateNotWhitelisted)
      ∧ (verify_detached payload s wl = Except.error PyError.certificateNotWhitelisted →
        jwsVerify jws certificate.public_numbers payload = Except.ok ()
          ∧ (wl.all fun c => decide (_der c ≠ x5c_der)) = true)) := by
  intro p s wl jws xs xd cert h1 h2 h3 h4
  unfold verify_detached
  rw [h1]
  simp only [h2, h3, h4]
  cases hjv : jwsVerify jws cert.public_numbers p with
  | error e =>
    have he := jwsVerify_error_eq hjv
    subst he
    constructor
    · intro hok _
      exact Except.noConfusion hok
    · intro hv
      simp at hv
  | ok u =>
    cases u
    constructor
    · intro _ hall
      show (if (wl.all fun c => decide (_der c ≠ xd)) = true then
          Except.error PyError.certificateNotWhitelisted else Except.ok ())
        = Except.error PyError.certificateNotWhitelisted
      exact if_pos hall
    · intro hv
      refine ⟨rfl, ?_⟩
      by_cases hall : (wl.all fun c => decide (_der c ≠ xd)) = true
      · exact hall
      · exfalso
        have hv' : (if (wl.all fun c => decide (_der c ≠ xd)) = true then
            Except.error PyError.certificateNotWhitelisted else Except.ok ())
          = Except.error PyError.certificateNotWhitelisted := hv
        rw [if_neg hall] at hv'
        exact Except.noConfusion hv'

/-- Witness for C2: the signature `wSig` cryptographically verifies but its
certificate `wCert` is not in the whitelist `[wCertOther]`. -/
theorem verify_detached_whitelist_after_crypto_witness :
    ((jwsVerify wObj wCert.public_numbers "test" = Except.ok () →
      ([wCertOther].all fun c => decide (_der c ≠ _der wCert)) = true →
      verify_detached "test" wSig [wCertOther]
        = Except.error PyError.certificateNotWhitelisted)
    ∧ (verify_detached "test" wSig [wCertOther]
          = Except.error PyError.certificateNotWhitelisted →
        jwsVerify wObj wCert.public_numbers "test" = Except.ok ()
          ∧ ([wCertOther].all fun c => decide (_der c ≠ _der wCert)) = true)) :=
  verify_detached_whitelist_after_crypto "test" wSig [wCertOther] wObj (_b64der wCert)
    (_der wCert) wCert rfl rfl rfl rfl

/-- C3 counterexample: a `ResponseMessage` built without wire bytes has
`original_json = None`, yet `as_json` emits `"original_json": null` — the
unset optional attribute is not absent from the serialized form. -/
theorem response_message_unset_original_json_null :
    strContains (ResponseMessage.as_json cRespMsgNoOriginal) "\"original_json\": null"
      = true := by rfl

/-- C3 (amended): only `PayinMessage.as_json` filters unset (`None`)
attributes out of each serialized object, so a payin message never emits a
null; a payout message also never emits a null, but only because every
attribute of its model is necessarily set after construction; a
`ResponseMessage`, serialized through the unfiltered `o.__dict__` lambda,
emits `null` for an unset attribute (its retained `original_json`). -/
theorem as_json_unset_attribute_handling :
    (∀ m : PayinMessage, (PayinMessage.toJ m).noNulls = true)
    ∧ (∀ m : PayoutMessage, (PayoutMessage.toJ m).noNulls = true)
    ∧ strContains (ResponseMessage.as_json cRespMsgNoOriginal) "\"original_json\": null"
        = true :=
  ⟨noNulls_payin_message, noNulls_payout_message, by rfl⟩

/-- C4: for a signed payload, handing `verify_detached` any different
payload, or any detached signature built from the same protected header but
different signature bytes, fails with exactly `InvalidSignature` — no other
error, regardless of the whitelist. -/
theorem verify_detached_tamper_invalid_signature :
    (∀ payload payload' key certificate wl s,
      sign payload key certificate = Except.ok s → payload' ≠ payload →
        verify_detached payload' s wl = Except.error PyError.invalidSignature)
    ∧ (∀ payload key certificate wl sigB,
        _cert_and_key_match certificate key = true →
        sigB ≠ ps256Sign key (signedProtSegment certificate ++ "." ++ payload) →
        verify_detached payload
          (signedProtSegment certificate ++ ".." ++ String.mk (encBytes sigB)) wl
          = Except.error PyError.invalidSignature) := by
  constructor
  · intro p p' k c wl s hs hne
    obtain ⟨hm, rfl⟩ := sign_eq_ok hs
    rw [verify_detached_signed_generic]
    have hv : ps256Verify c.public_numbers (signedProtSegment c ++ "." ++ p')
        (ps256Sign k (signedProtSegment c ++ "." ++ p)) = false := by
      apply ps256Verify_signed_neq hm
      intro hEq
      exact hne (signing_input_inj _ hEq)
    rw [hv]
    rfl
  · intro p k c wl sigB hm hne
    rw [verify_detached_signed_generic]
    have hv : ps256Verify c.public_numbers (signedProtSegment c ++ "." ++ p) sigB = false := by
      rw [ps256Verify, decide_eq_false_iff_not]
      intro hEq
      apply hne
      rw [hEq, ps256Sign]
      have hpub : c.public_numbers = k.public_numbers := of_decide_eq_true hm
      rw [hpub, RSAPrivateKey.public_numbers]
    rw [hv]
    rfl

/-- C5 counterexample: the malformed detached signature `"abc"` (no `..`
separator) is rejected with the JWS library's parse error
(`InvalidJWSObject`), not with the repository's `InvalidJWS`. -/
theorem verify_detached_malformed_library_error :
    verify_detached "x" "abc" [] = Except.error PyError.invalidJWSObject
    ∧ verify_detached "x" "abc" [] ≠ Except.error PyError.invalidJWS := by
  constructor
  · rfl
  · intro h
    rw [show verify_detached "x" "abc" [] = Except.error PyError.invalidJWSObject from rfl] at h
    injection h with h'
    exact PyError.noConfusion h'

/-- C5 (amended): `verify_detached` raises `InvalidJWS` exactly when the
compact JWS deserializes successfully but the decoded protected header's
`x5c` is missing or empty; a structurally malformed detached signature
raises the JWS library's parse error instead. -/
theorem verify_detached_invalid_jws_iff :
    ∀ payload s wl,
      verify_detached payload s wl = Except.error PyError.invalidJWS ↔
        ∃ jws, jwsDeserialize s = Except.ok jws ∧
          (jws.jose_header.x5c = none ∨ jws.jose_header.x5c = some []) := by
  intro p s wl
  unfold verify_detached
  cases hd : jwsDeserialize s with
  | error e =>
    have he := jwsDeserialize_error_eq hd
    subst he
    constructor
    · intro h
      injection h with h'
      exact absurd h' (by decide)
    · rintro ⟨jws, hj, _⟩
      exact Except.noConfusion hj
  | ok jws =>
    cases hx : jws.jose_header.x5c with
    | none =>
      simp only [_x5c_first, hx]
      constructor
      · intro _
        exact ⟨jws, rfl, Or.inl hx⟩
      · intro _
        trivial
    | some l =>
      cases l with
      | nil =>
        simp only [_x5c_first, hx]
        constructor
        · intro _
          exact ⟨jws, rfl, Or.inr hx⟩
        · intro _
          trivial
      | cons c0 cs =>
        simp only [_x5c_first, hx]
        constructor
        · intro h
          exfalso
          cases hbd : b64decodeString c0 with
          | none =>
            simp only [hbd] at h
            injection h with h'
            exact absurd h' (by decide)
          | some der =>
            simp only [hbd] at h
            cases hld : load_der_x509_certificate der with
            | none =>
              simp only [hld] at h
              injection h with h'
              exact absurd h' (by decide)
            | some cert =>
              simp only [hld] at h
              cases hjv : jwsVerify jws cert.public_numbers p with
              | error e =>
                have he := jwsVerify_error_eq hjv
                subst he
                simp only [hjv] at h
                injection h with h'
                exact absurd h' (by decide)
              | ok u =>
                cases u
                simp only [hjv] at h
                split at h
                · injection h with h'
                  exact absurd h' (by decide)
                · exact Except.noConfusion h
        · rintro ⟨jws', hj, hx'⟩
          exfalso
          injection hj with hj'
          subst hj'
          rcases hx' with h' | h' <;> rw [hx] at h' <;> simp at h'

/-- C6: for every payload and every key/certificate pair whose public
components do not match, `sign` raises `KeyMismatch` and produces no
signature. -/
theorem sign_key_mismatch :
    ∀ payload key certificate, _cert_and_key_match certificate key = false →
      sign payload key certificate = Except.error PyError.keyMismatch := by
  intro p k c h
  unfold sign
  rw [h]
  rfl

/-- Witness for C6: `wKeyOther`'s public numbers differ from `wCert`'s. -/
theorem sign_key_mismatch_witness :
    sign "test" wKeyOther wCert = Except.error PyError.keyMismatch :=
  sign_key_mismatch "test" wKeyOther wCert rfl

/-- C7: when the detached signature verifies over the retained
`original_json` (the verification payload is that original string, by the
definition of `ResponseMessage.verify`), `verify` raises `UnexpectedSender`
if the header's sender is not value-equal to the expected sender (checked
first), otherwise `UnexpectedReceiver` if the header's receiver is not
value-equal to the expected receiver, and otherwise returns successfully. -/
theorem response_verify_identity_checks :
    ∀ (m : ResponseMessage) detached_jws certs sender receiver original,
      m.original_json = some original →
      verify_detached original detached_jws certs = Except.ok () →
      m.verify detached_jws certs sender receiver =
        (if (m.header.sender.eqPy sender) = false then Except.error PyError.unexpectedSender
         else if (m.header.receiver.eqPy receiver) = false then
           Except.error PyError.unexpectedReceiver
         else Except.ok ()) := by
  intro m dj certs snd rcv orig ho hv
  unfold ResponseMessage.verify
  rw [ho]
  simp only [hv]

/-- Witness for C7: a concrete response message whose signature verifies,
with the expected sender and receiver. -/
theorem response_verify_identity_checks_witness :
    wRespMsg.verify wSig [wCert] SHINKANSEN (FinancialInstitution.make "TAMAGOTCHI" none) =
      (if (wRespMsg.header.sender.eqPy SHINKANSEN) = false then
        Except.error PyError.unexpectedSender
      else if (wRespMsg.header.receiver.eqPy (FinancialInstitution.make "TAMAGOTCHI" none))
          = false then Except.error PyError.unexpectedReceiver
      else Except.ok ()) :=
  response_verify_identity_checks wRespMsg wSig [wCert] SHINKANSEN
    (FinancialInstitution.make "TAMAGOTCHI" none) "test" rfl rfl

/-- C8: a response JSON dict whose `transaction_type` is unregistered (or
absent) makes `Response.from_json_dict` fall back to the base `Response`
class, whose `__init__` then reads the class attribute `_transaction_type`
that the base class never defines — so the call raises `AttributeError`
instead of returning a generic `Response`; the registered tag `"payout"`
works, showing the failure is specific to the fallback path the spec
describes. -/
theorem response_from_json_dict_unknown_tag_attribute_error :
    Response.from_json_dict cUnknownTypeDict "generated-uuid"
        = Except.error PyError.attributeError
    ∧ Response.from_json_dict cNoTypeDict "generated-uuid"
        = Except.error PyError.attributeError
    ∧ Response.from_json_dict cPayoutTypeDict "generated-uuid" =
        Except.ok ⟨some "1545e0f0", some "5e5a7344", some "ok", some "ok", some "ok", some "",
          some "payout", "f7a29de9"⟩ :=
  ⟨rfl, rfl, rfl⟩

/-- C9: every signature `sign` emits is
`base64url(protected_header) ++ ".." ++ base64url(signature)`, both
segments free of `.` (so the string holds exactly one `..` and no embedded
payload segment), and the protected-header segment decodes and parses to
exactly `alg="PS256"`, `b64=false`, `crit=["b64"]`,
`x5c=[base64(DER(certificate))]`. -/
theorem sign_output_format :
    ∀ payload key certificate s, sign payload key certificate = Except.ok s →
      s = signedProtSegment certificate ++ ".."
          ++ String.mk (encBytes (ps256Sign key (signedProtSegment certificate ++ "." ++ payload)))
      ∧ (∀ ch ∈ (signedProtSegment certificate).data, ch ≠ '.')
      ∧ (∀ ch ∈ encBytes (ps256Sign key (signedProtSegment certificate ++ "." ++ payload)),
          ch ≠ '.')
      ∧ decBytes (signedProtSegment certificate).data
          = some (headerBytes (signedHeader certificate))
      ∧ parseJoseHeader (headerBytes (signedHeader certificate))
          = some ⟨some "PS256", some false, some ["b64"], some [_b64der certificate]⟩ := by
  intro p k c s hs
  obtain ⟨hm, hform⟩ := sign_eq_ok hs
  refine ⟨hform, ?_, ?_, ?_, ?_⟩
  · intro ch hch
    exact encBytes_no_dot (headerBytes (signedHeader c)) ch hch
  · intro ch hch
    exact encBytes_no_dot _ ch hch
  · exact decBytes_encBytes _
  · exact parseJoseHeader_headerBytes (signedHeader c)

/-- Witness for C9 at payload `"test"` with `wKey` and `wCert`. -/
theorem sign_output_format_witness :
    wSig = signedProtSegment wCert ++ ".."
        ++ String.mk (encBytes (ps256Sign wKey (signedProtSegment wCert ++ "." ++ "test")))
    ∧ (∀ ch ∈ (signedProtSegment wCert).data, ch ≠ '.')
    ∧ (∀ ch ∈ encBytes (ps256Sign wKey (signedProtSegment wCert ++ "." ++ "test")), ch ≠ '.')
    ∧ decBytes (signedProtSegment wCert).data = some (headerBytes (signedHeader wCert))
    ∧ parseJoseHeader (headerBytes (signedHeader wCert))
        = some ⟨some "PS256", some false, some ["b64"], some [_b64der wCert]⟩ :=
  sign_output_format "test" wKey wCert wSig rfl

/-- C10: constructing a `FinancialInstitution` with `fin_id_schema` omitted
(`None`) defaults the schema to `"SHINKANSEN"`, so the result is value-equal
— both propositionally and under the modelled `__eq__` used by the identity
guard — to one constructed with an explicit `"SHINKANSEN"`. -/
theorem financial_institution_default_schema :
    ∀ fin_id,
      FinancialInstitution.make fin_id none = FinancialInstitution.make fin_id (some "SHINKANSEN")
      ∧ (FinancialInstitution.make fin_id none).eqPy
          (FinancialInstitution.make fin_id (some "SHINKANSEN")) = true
      ∧ (FinancialInstitution.make fin_id none).fin_id_schema = "SHINKANSEN" := by
  intro fid
  have h1 : FinancialInstitution.make fid (some "SHINKANSEN")
      = FinancialInstitution.make fid none := rfl
  refine ⟨h1.symm, ?_, rfl⟩
  rw [h1]
  simp [FinancialInstitution.eqPy, FinancialInstitution.make]

end Shinkansen
